import Mathlib

/-!
Verification of the `eisen` package (Eisenstein integer arithmetic over
arbitrary-precision integers).  The source file `stein.go` is present in two
revisions: an earlier one (its `Mul` at lines 126–143 reads the operand
components through live pointers while writing the receiver) and a later one
(its `Mul` at lines 300–319 snapshots the four operand components before any
write).  Both are embedded below.  Values are pairs of unbounded integers, so
`big.Int` components become `Int`; methods that write a receiver cell that may
coincide with an operand cell are embedded as functions parametrized by the
aliasing pattern, where a read of a component the method has already
overwritten sees the written value.
-/

namespace Eisen

/-- The Stein struct (stein.go lines 13–15 and 201–203): an Eisenstein
integer `l + r·ω`, the two `big.Int` components modelled as `Int`. -/
structure Stein where
  l : Int
  r : Int
deriving DecidableEq, Repr

/-- Method Neg (stein.go lines 94–98 and 268–272): componentwise negation.
Each component of the result is computed from the still-unwritten operand
component of the same position, so the receiver aliasing the operand cannot
change the outcome and no aliasing parameter is needed. -/
def Neg (y : Stein) : Stein :=
  ⟨-y.l, -y.r⟩

/-- Method Conj (stein.go lines 101–105 and 275–279): the left component
becomes `y.l - y.r` (computed before anything is stored), the right one
`-y.r` (read after only the left cell was written), so the result is the
same for every aliasing pattern and no aliasing parameter is needed. -/
def Conj (y : Stein) : Stein :=
  ⟨y.l - y.r, -y.r⟩

/-- Method Mul in the snapshotting revision (stein.go lines 300–319): with
`x = a + bω` and `y = c + dω` the receiver gets `a·c - d·b` on the left and
`(d·a + b·c) - b·d` on the right, exactly in the order of the source. -/
def Mul (x y : Stein) : Stein :=
  ⟨x.l * y.l - y.r * x.r, y.r * x.l + x.r * y.l - x.r * y.r⟩

/-- Method Mul in the earlier revision (stein.go lines 126–143), which keeps
live pointers `a, b := x.L(), x.R()` and `c, d := y.L(), y.R()` into the
operands while it writes the receiver.  `zx` (resp. `zy`) records whether the
receiver cell is the cell holding `x` (resp. `y`).  The statement order is
that of the source: first the left cell is stored (`a·c - d·b` from the
original components), then the right cell is stored as `d·a + b·c` where `a`
and `c` now read back the stored left value under aliasing, then the right
cell is replaced by its value minus `b·d` where `b` and `d` now read back the
stored right value under aliasing.  The initial receiver content is never
read before it is first written, so it is not a parameter. -/
def MulV1 (zx zy : Bool) (x y : Stein) : Stein :=
  let zl := x.l * y.l - y.r * x.r
  let a2 := if zx then zl else x.l
  let c2 := if zy then zl else y.l
  let zr1 := y.r * a2 + x.r * c2
  let b2 := if zx then zr1 else x.r
  let d2 := if zy then zr1 else y.r
  ⟨zl, zr1 - b2 * d2⟩

/-- The snapshotting Mul (stein.go lines 300–319) under the same
aliasing-pattern convention as `MulV1`: the four operand components are
copied into fresh integers at lines 301–304 before the first write to the
receiver, and no operand component is read afterwards, so no read can see a
written cell and the pattern flags reach no expression. -/
def MulSnap (_zx _zy : Bool) (x y : Stein) : Stein :=
  let a := x.l
  let b := x.r
  let c := y.l
  let d := y.r
  ⟨a * c - d * b, d * a + b * c - b * d⟩

/-- Method Quad (stein.go lines 146–157 and 322–334):
`quad = l·l + r·r - l·r`. -/
def Quad (z : Stein) : Int :=
  z.l * z.l + z.r * z.r - z.l * z.r

/-- The execution of Quad (stein.go lines 322–334) as a state transformer on
the receiver: the method allocates the fresh cells `quad` and `temp`, writes
only those two cells in the listed order, and returns the `quad` cell; the
receiver cells are only read, so the final receiver content is the initial
one. -/
def QuadRun (z : Stein) : Int × Stein :=
  let quad := z.l * z.l
  let temp := z.r * z.r
  let quad := quad + temp
  let temp := z.l * z.r
  let quad := quad - temp
  (quad, z)

/-- Error conditions observable from Quo.  `intDivByZero` is the
division-by-zero run-time condition raised by the collaborator primitive
`big.Int.Quo` itself when its divisor is zero; `zeroDivisorRejected` stands
for an explicit fail-fast rejection of a zero-quadrance divisor issued before
any component division, as the design document demands.  The source of Quo
(stein.go lines 161–168 and 338–345) contains no test of the divisor, so
only the first constructor can arise from the embedded code. -/
inductive GoErr where
  | intDivByZero : GoErr
  | zeroDivisorRejected : GoErr
deriving DecidableEq, Repr

/-- The collaborator primitive `big.Int.Quo`: truncated division rounding
the quotient toward zero; a zero divisor is its own run-time error
condition, not a value. -/
def bigQuo (a b : Int) : Except GoErr Int :=
  if b = 0 then Except.error GoErr.intDivByZero else Except.ok (a.tdiv b)

/-- Method Quo of the snapshotting revision (stein.go lines 338–345) with
the receiver distinct from both operands: `quad := y.Quad()`, then
`z.Conj(y)`, then `z.Mul(x, z)` (the snapshotting Mul, so the receiver being
its own second operand is harmless), then each component of the receiver is
divided by `quad` with `big.Int.Quo`. -/
def Quo (x y : Stein) : Except GoErr Stein :=
  let quad := Quad y
  let z1 := Conj y
  let p := Mul x z1
  match bigQuo p.l quad with
  | Except.error e => Except.error e
  | Except.ok zl =>
    match bigQuo p.r quad with
    | Except.error e => Except.error e
    | Except.ok zr => Except.ok ⟨zl, zr⟩

/-- Method Quo (stein.go lines 338–345) when the receiver cell is the cell
holding `x`: after `z.Conj(y)` that one cell holds `Conj y`, so the
subsequent `z.Mul(x, z)` multiplies `Conj y` by itself; the original content
of `x` is never read.  The divisor quadrance was computed beforehand. -/
def QuoZX (x y : Stein) : Except GoErr Stein :=
  let _ := x
  let quad := Quad y
  let z1 := Conj y
  let p := Mul z1 z1
  match bigQuo p.l quad with
  | Except.error e => Except.error e
  | Except.ok zl =>
    match bigQuo p.r quad with
    | Except.error e => Except.error e
    | Except.ok zr => Except.ok ⟨zl, zr⟩

/-- Method Quo (stein.go lines 338–345) when the receiver cell is the cell
holding `y`: `quad := y.Quad()` is computed before any write; `z.Conj(y)`
with the receiver equal to `y` still stores `Conj y` (the right component is
read only before it is written); the snapshotting `z.Mul(x, z)` then forms
`x · Conj y` exactly as in the non-aliased run, and the two divisions use
the saved `quad`. -/
def QuoZY (x y : Stein) : Except GoErr Stein :=
  let quad := Quad y
  let z1 := Conj y
  let p := Mul x z1
  match bigQuo p.l quad with
  | Except.error e => Except.error e
  | Except.ok zl =>
    match bigQuo p.r quad with
    | Except.error e => Except.error e
    | Except.ok zr => Except.ok ⟨zl, zr⟩

/-- The unit ω, the value `New(big.NewInt(0), big.NewInt(1))` built at
stein.go lines 172–175; `Omega()` at lines 206–211 builds the same value. -/
def Omega : Stein :=
  ⟨0, 1⟩

/-- Method Associates of the earlier revision (stein.go lines 171–186).
Each of the six returned values is a fresh cell, so those products use
`MulV1` with no aliasing; the local `ω` is updated in place: `ω.Neg(ω)` is
harmless (each component of Neg is computed into a fresh integer before it
is stored), but `ω.Mul(ω, ω)` runs the live-pointer Mul with the receiver
equal to both operands, i.e. `MulV1 true true`.  (The later revision of
Associates, stein.go lines 348–359, calls `a.Copy(z)` on the nil pointers of
its named return values and stops with a run-time fault on first use, so it
returns nothing to embed.) -/
def Associates (z : Stein) : Stein × Stein × Stein × Stein × Stein × Stein :=
  let w0 := Omega
  let a := z
  let b := Neg z
  let c := MulV1 false false z w0
  let w1 := Neg w0
  let d := MulV1 false false z w1
  let w2 := MulV1 true true w1 w1
  let e := MulV1 false false z w2
  let w3 := Neg w2
  let f := MulV1 false false z w3
  (a, b, c, d, e, f)

deriving instance DecidableEq for Except

/-- C1 counterexample: dividing `1 + 0ω` by the zero value `0 + 0ω` does not
produce an explicit fail-fast rejection of the zero divisor: the condition
that arises is the divide-by-zero error of the underlying integer division
primitive itself, reached at the first component division. -/
theorem C1_cex_no_failfast :
    Quo ⟨1, 0⟩ ⟨0, 0⟩ ≠ Except.error GoErr.zeroDivisorRejected := by
  decide

/-- C1 (amended): Quo performs no explicit zero-divisor check; for every
divisor of zero quadrance it computes the conjugate and the product and then
stops with the divide-by-zero error of the underlying truncating-division
primitive at the component division. -/
theorem C1_quo_zero_divisor (x y : Stein) (h : Quad y = 0) :
    Quo x y = Except.error GoErr.intDivByZero := by
  simp [Quo, bigQuo, h]

/-- C1 witness: the amended statement at `x = 1 + 0ω`, `y = 0 + 0ω`. -/
theorem C1_quo_zero_divisor_witness :
    Quo ⟨1, 0⟩ ⟨0, 0⟩ = Except.error GoErr.intDivByZero :=
  C1_quo_zero_divisor ⟨1, 0⟩ ⟨0, 0⟩ (by decide)

/-- C2: with the result stored in a value distinct from both operands, both
revisions of Mul send `(a+bω, c+dω)` to `(ac-bd) + (ad+bc-bd)ω`; in
particular `(1+ω)·(1+ω) = 0+ω`. -/
theorem C2_mul_formula (a b c d : Int) :
    Mul ⟨a, b⟩ ⟨c, d⟩ = ⟨a * c - b * d, a * d + b * c - b * d⟩ ∧
      MulV1 false false ⟨a, b⟩ ⟨c, d⟩ = ⟨a * c - b * d, a * d + b * c - b * d⟩ ∧
      Mul ⟨1, 1⟩ ⟨1, 1⟩ = ⟨0, 1⟩ := by
  refine ⟨?_, ?_, by decide⟩
  · simp only [Mul, Stein.mk.injEq]
    constructor <;> ring
  · rw [show MulV1 false false ⟨a, b⟩ ⟨c, d⟩ =
        ⟨a * c - d * b, d * a + b * c - b * d⟩ from rfl]
    simp only [Stein.mk.injEq]
    constructor <;> ring

/-- C3 counterexample: the live-pointer Mul of stein.go lines 126–143 does
not tolerate the receiver aliasing its first operand: at `x = y = 1 + 1ω`
the aliased run stores `0 + 0ω` while the non-aliased run stores `0 + 1ω`. -/
theorem C3_cex_mulv1_alias :
    MulV1 true false ⟨1, 1⟩ ⟨1, 1⟩ = ⟨0, 0⟩ ∧
      MulV1 false false ⟨1, 1⟩ ⟨1, 1⟩ = ⟨0, 1⟩ ∧
      MulV1 true false ⟨1, 1⟩ ⟨1, 1⟩ ≠ MulV1 false false ⟨1, 1⟩ ⟨1, 1⟩ := by
  decide

/-- C3 (amended): the snapshotting Mul of stein.go lines 300–319 produces
the non-aliased product under every aliasing pattern of the receiver with
the operands; the earlier revision at lines 126–143 does not (see the
counterexample). -/
theorem C3_mulsnap_alias_safe (zx zy : Bool) (x y : Stein) :
    MulSnap zx zy x y = Mul x y :=
  rfl

/-- C4: for every divisor of nonzero quadrance, Quo (receiver distinct from
both operands) returns the componentwise truncated quotient of
`x · Conj y` by `Quad y`. -/
theorem C4_quo_algorithm (x y : Stein) (h : Quad y ≠ 0) :
    Quo x y =
      Except.ok
        ⟨Int.tdiv (Mul x (Conj y)).l (Quad y),
          Int.tdiv (Mul x (Conj y)).r (Quad y)⟩ := by
  simp [Quo, bigQuo, h]

/-- C4 witness: the quotient of `1 + 0ω` by `1 + 1ω` is `0 - 1ω`, and the
quotient of `4 + 0ω` by `2 + 0ω` is `2 + 0ω`. -/
theorem C4_quo_algorithm_witness :
    Quad ⟨1, 1⟩ ≠ 0 ∧ Quo ⟨1, 0⟩ ⟨1, 1⟩ = Except.ok ⟨0, -1⟩ ∧
      Quo ⟨4, 0⟩ ⟨2, 0⟩ = Except.ok ⟨2, 0⟩ :=
  ⟨by decide,
    by rw [C4_quo_algorithm ⟨1, 0⟩ ⟨1, 1⟩ (by decide)]; decide,
    by rw [C4_quo_algorithm ⟨4, 0⟩ ⟨2, 0⟩ (by decide)]; decide⟩

/-- C5 counterexample: Quo with the receiver aliasing `x` differs from the
non-aliased run: at `x = 1 + 0ω`, `y = 1 + 1ω` the aliased run stores
`-1 - 1ω` (the square of `Conj y` divided by the quadrance) while the
non-aliased run stores `0 - 1ω`. -/
theorem C5_cex_quo_alias_x :
    QuoZX ⟨1, 0⟩ ⟨1, 1⟩ = Except.ok ⟨-1, -1⟩ ∧
      Quo ⟨1, 0⟩ ⟨1, 1⟩ = Except.ok ⟨0, -1⟩ ∧
      QuoZX ⟨1, 0⟩ ⟨1, 1⟩ ≠ Quo ⟨1, 0⟩ ⟨1, 1⟩ := by
  decide

/-- C5 (amended): Quo with the receiver aliasing `y` agrees with the
non-aliased run on every input; aliasing the receiver with `x` does not (see
the counterexample), because the conjugate of the divisor overwrites `x`
before the product is formed. -/
theorem C5_quo_alias_y_safe (x y : Stein) :
    QuoZY x y = Quo x y :=
  rfl

/-- C6: the quadrance of `a + bω` is `a² + b² - ab`; it is strictly positive
for every value other than `0 + 0ω`, and zero exactly at `0 + 0ω`. -/
theorem C6_quad_value_pos (x : Stein) :
    Quad x = x.l ^ 2 + x.r ^ 2 - x.l * x.r ∧
      (x ≠ ⟨0, 0⟩ → 0 < Quad x) ∧ (Quad x = 0 ↔ x = ⟨0, 0⟩) := by
  obtain ⟨a, b⟩ := x
  have hval : Quad ⟨a, b⟩ = a ^ 2 + b ^ 2 - a * b := by
    simp only [Quad]; ring
  have hpos : (⟨a, b⟩ : Stein) ≠ ⟨0, 0⟩ → 0 < Quad ⟨a, b⟩ := by
    intro hne
    have hab : ¬(a = 0 ∧ b = 0) := by
      intro hh
      exact hne (by simp [Stein.mk.injEq, hh.1, hh.2])
    rcases eq_or_ne b 0 with hb | hb
    · have ha : a ≠ 0 := by
        intro ha0
        exact hab ⟨ha0, hb⟩
      have : 0 < a * a := mul_self_pos.mpr ha
      simp only [Quad, hb]
      nlinarith
    · have hb2 : 0 < b * b := mul_self_pos.mpr hb
      simp only [Quad]
      nlinarith [sq_nonneg (2 * a - b)]
  refine ⟨hval, hpos, ?_⟩
  constructor
  · intro hq
    by_contra hne
    exact absurd hq (ne_of_gt (hpos hne))
  · intro hz
    rw [hz]
    decide

/-- C7: the quadrance is multiplicative along Mul:
`Quad (Mul x y) = Quad x · Quad y`. -/
theorem C7_quad_multiplicative (x y : Stein) :
    Quad (Mul x y) = Quad x * Quad y := by
  obtain ⟨a, b⟩ := x
  obtain ⟨c, d⟩ := y
  simp only [Quad, Mul]
  ring

/-- C8: the in-place squaring `ω.Mul(ω, ω)` inside Associates runs the
live-pointer Mul with the receiver equal to both operands and turns the unit
`-ω` into `-1 - 2ω` instead of `ω² = -1 - ω`, so at `z = 1 + 0ω` the fifth
value returned by Associates is not `z·ω²`. -/
theorem C8_associates_wrong_unit :
    MulV1 true true (Neg Omega) (Neg Omega) = ⟨-1, -2⟩ ∧
      Mul (Neg Omega) (Neg Omega) = ⟨-1, -1⟩ ∧
      (Associates ⟨1, 0⟩).2.2.2.2.1 = ⟨-1, -2⟩ ∧
      (Associates ⟨1, 0⟩).2.2.2.2.1 ≠ Mul ⟨1, 0⟩ (Mul Omega Omega) := by
  decide

/-- C9 counterexample: the fifth value of `Associates (1 + 0ω)` is
`-1 - 2ω`, not the claimed `-1 + 1ω`. -/
theorem C9_cex_associates_one :
    (Associates ⟨1, 0⟩).2.2.2.2.1 = ⟨-1, -2⟩ ∧
      ((⟨-1, -2⟩ : Stein) ≠ ⟨-1, 1⟩) := by
  decide

/-- C9 (amended): `Associates (1 + 0ω)` yields, in order, `(1,0)`, `(-1,0)`,
`(0,1)`, `(0,-1)`, `(-1,-2)`, `(1,2)`: the first four as claimed, the last
two corrupted by the in-place unit squaring (the mathematically intended
values would be `(-1,-1)` and `(1,1)`). -/
theorem C9_associates_one_actual :
    Associates ⟨1, 0⟩ =
      (⟨1, 0⟩, ⟨-1, 0⟩, ⟨0, 1⟩, ⟨0, -1⟩, ⟨-1, -2⟩, ⟨1, 2⟩) := by
  decide

/-- C10: Quad is a pure observer: run as a state transformer it returns the
quadrance of the receiver in a separate result cell and leaves both receiver
components unchanged. -/
theorem C10_quad_pure (z : Stein) :
    QuadRun z = (Quad z, z) :=
  rfl

end Eisen
